import Mathlib

/-!
Shallow embedding of `src/sci_tools/main.py` (the `jt_test` CLI pipeline):
read CSV → validate grouping column → filter rows by an ordered group list →
select numeric target columns → per-column Jonckheere-Terpstra trend test
(external, modelled as an oracle) → Benjamini-Hochberg FDR correction
(external, modelled as an oracle) → significance flags → sort → write CSV.
-/

namespace SciTools

/-- A cell of the tabular input: a string value, a numeric value, or missing
(pandas NaN / absent). -/
inductive Cell where
  | str (s : String)
  | num (q : ℚ)
  | na
deriving DecidableEq

/-- A row of the table: association list from column name to cell. -/
abbrev Row := List (String × Cell)

/-- Cell lookup; a key that is absent behaves as a missing value. -/
def getCell (r : Row) (c : String) : Cell :=
  (r.lookup c).getD Cell.na

/-- A data frame: its column names, the subset of columns whose dtype is
numeric, and its rows. -/
structure DataFrame where
  colNames : List String
  numericCols : List String
  rows : List Row
deriving DecidableEq

/-- Python `str.strip()`: remove leading and trailing whitespace. -/
def strip (cs : List Char) : List Char :=
  ((cs.dropWhile Char.isWhitespace).reverse.dropWhile Char.isWhitespace).reverse

/-- Models `ordered_groups = [g.strip() for g in group_order.split(",")]`:
split at every comma (keeping empty pieces, as Python `split` does) and strip
each piece. -/
def parseOrder (group_order : String) : List String :=
  (List.splitOnP (fun c => c = ',') group_order.data).map
    (fun cs => String.mk (strip cs))

/-- Models the row predicate `df[group_column].isin(ordered_groups)`:
true exactly when the grouping cell is a string occurring in the list. -/
def inGroups (ordered : List String) (gc : String) (r : Row) : Bool :=
  match getCell r gc with
  | Cell.str s => ordered.contains s
  | _ => false

/-- Models the ordinal code `.cat.codes` of
`pd.Categorical(values, categories=ordered_groups, ordered=True)` for a row
whose grouping cell is a string in the category list: the 0-based position of
the label in the list. -/
def groupCode (ordered : List String) (gc : String) (r : Row) : ℕ :=
  match getCell r gc with
  | Cell.str s => ordered.indexOf s
  | _ => 0

/-- Models `df_filtered = df[df[group_column].isin(ordered_groups)].copy()`
followed by the Categorical conversion of the grouping column (after which
that column's dtype is no longer numeric). -/
def df_filtered (df : DataFrame) (gc : String) (ordered : List String) : DataFrame :=
  { colNames := df.colNames
    numericCols := df.numericCols.filter (fun c => c ≠ gc)
    rows := df.rows.filter (inGroups ordered gc) }

/-- Models `cols_to_exclude = [group_column]` extended with `id_column` when
`id_column in df.columns`. -/
def cols_to_exclude (df : DataFrame) (gc idc : String) : List String :=
  if idc ∈ df.colNames then [gc, idc] else [gc]

/-- Models `value_columns = df_filtered.select_dtypes(include=["number"]).columns`. -/
def value_columns (df : DataFrame) (gc : String) (ordered : List String) : List String :=
  (df_filtered df gc ordered).numericCols

/-- Models `target_columns = [col for col in value_columns if col not in cols_to_exclude]`. -/
def target_columns (df : DataFrame) (gc idc : String) (ordered : List String) : List String :=
  (value_columns df gc ordered).filter (fun c => c ∉ cols_to_exclude df gc idc)

/-- The object returned by the external `jonckheere_test` function. -/
structure JTResultObj where
  statistic : ℚ
  z_score : Option ℚ
  p_value : ℚ
deriving DecidableEq

/-- The external `jonckheere_test(x, groups=g, alternative=alt)` call,
modelled as an oracle; `none` models a raised exception. -/
abbrev JTOracle := List ℚ → List ℕ → String → Option JTResultObj

/-- One collected per-column result dictionary. -/
structure ResultRow where
  varName : String
  JTR_Sum : ℚ
  Z_statistic : ℚ
  P_value_Raw : ℚ
deriving DecidableEq

/-- Models `current_data = df_filtered[[col, group_column]].dropna()` followed
by extraction of the value array and the categorical code array: rows whose
feature cell is missing, or whose grouping cell did not map to a category
(which pandas represents as NaN codes), are dropped. -/
def current_data (ordered : List String) (gc col : String) (rows : List Row) :
    List (ℚ × ℕ) :=
  rows.filterMap (fun r =>
    match getCell r col with
    | Cell.num q =>
      match getCell r gc with
      | Cell.str s => if ordered.contains s then some (q, ordered.indexOf s) else none
      | _ => none
    | _ => none)

/-- Models one iteration of the per-column loop body: skip on zero usable
rows (`continue`), skip on exception (`except: continue`), otherwise record
the feature name, statistic, z-score (0 when the library reports none) and
raw p-value. -/
def testColumn (jt : JTOracle) (alt : String) (ordered : List String) (gc : String)
    (rows : List Row) (col : String) : Option ResultRow :=
  let data := current_data ordered gc col rows
  if data.length = 0 then none
  else
    match jt (data.map Prod.fst) (data.map Prod.snd) alt with
    | none => none
    | some robj =>
      some { varName := col
             JTR_Sum := robj.statistic
             Z_statistic := robj.z_score.getD 0
             P_value_Raw := robj.p_value }

/-- Models the whole `for col in target_columns` loop: the append-only
`results` list. -/
def runTests (jt : JTOracle) (alt : String) (ordered : List String) (gc : String)
    (rows : List Row) (targets : List String) : List ResultRow :=
  targets.filterMap (testColumn jt alt ordered gc rows)

/-- The external `multipletests(..., method="fdr_bh")` adjusted p-values,
modelled as an oracle from the raw p-value list to the adjusted list. -/
abbrev BHOracle := List ℚ → List ℚ

/-- A row of `results_df` after the FDR/significance columns are added. -/
structure AnnRow where
  varName : String
  JTR_Sum : ℚ
  Z_statistic : ℚ
  P_value_Raw : ℚ
  FDR : ℚ
  sig_raw : Bool
  sig_fdr : Bool
deriving DecidableEq

/-- Models adding the `FDR`, `Sig_Raw (p<α)` and `Sig_FDR (q<α)` columns to
`results_df`: the adjusted p-values are position-aligned with the raw ones,
and both flags are strict-threshold comparisons against α. -/
def annotate (bh : BHOracle) (alpha : ℚ) (results : List ResultRow) : List AnnRow :=
  let fdrs := bh (results.map ResultRow.P_value_Raw)
  (results.zip fdrs).map (fun p =>
    { varName := p.1.varName
      JTR_Sum := p.1.JTR_Sum
      Z_statistic := p.1.Z_statistic
      P_value_Raw := p.1.P_value_Raw
      FDR := p.2
      sig_raw := decide (p.1.P_value_Raw < alpha)
      sig_fdr := decide (p.2 < alpha) })

/-- The sort key order of `results_df.sort_values(by=["FDR", "P_value_Raw"])`:
lexicographic on the pair (FDR, raw p-value). -/
def annLe (a b : AnnRow) : Prop :=
  a.FDR < b.FDR ∨ (a.FDR = b.FDR ∧ a.P_value_Raw ≤ b.P_value_Raw)

instance : DecidableRel annLe := fun a b => by
  unfold annLe; exact inferInstance

instance : IsTotal AnnRow annLe where
  total a b := by
    rcases lt_trichotomy a.FDR b.FDR with h | h | h
    · exact Or.inl (Or.inl h)
    · rcases le_total a.P_value_Raw b.P_value_Raw with hp | hp
      · exact Or.inl (Or.inr ⟨h, hp⟩)
      · exact Or.inr (Or.inr ⟨h.symm, hp⟩)
    · exact Or.inr (Or.inl h)

instance : IsTrans AnnRow annLe where
  trans a b c hab hbc := by
    rcases hab with hab | ⟨hab, hab2⟩
    · rcases hbc with hbc | ⟨hbc, _⟩
      · exact Or.inl (hab.trans hbc)
      · exact Or.inl (hbc ▸ hab)
    · rcases hbc with hbc | ⟨hbc, hbc2⟩
      · exact Or.inl (hab ▸ hbc)
      · exact Or.inr ⟨hab.trans hbc, hab2.trans hbc2⟩

/-- Models `results_df.sort_values(by=["FDR", "P_value_Raw"])`. -/
def sortResults (l : List AnnRow) : List AnnRow :=
  List.insertionSort annLe l

/-- A row of the persisted CSV: the fixed column subset
`[Variable, P_value_Raw, FDR, Sig_FDR, Z_statistic, JTR_Sum]`. -/
structure OutRow where
  varName : String
  P_value_Raw : ℚ
  FDR : ℚ
  Sig_FDR : Bool
  Z_statistic : ℚ
  JTR_Sum : ℚ
deriving DecidableEq

/-- Models the column projection `results_df[cols]` before `to_csv`. -/
def project (a : AnnRow) : OutRow :=
  { varName := a.varName
    P_value_Raw := a.P_value_Raw
    FDR := a.FDR
    Sig_FDR := a.sig_fdr
    Z_statistic := a.Z_statistic
    JTR_Sum := a.JTR_Sum }

/-- The row list written to the output CSV. -/
def outputRows (bh : BHOracle) (alpha : ℚ) (results : List ResultRow) : List OutRow :=
  (sortResults (annotate bh alpha results)).map project

/-- Models `n_raw_sig = results_df["Sig_Raw (p<α)"].sum()`. -/
def n_raw_sig (bh : BHOracle) (alpha : ℚ) (results : List ResultRow) : ℕ :=
  ((sortResults (annotate bh alpha results)).filter (fun a => a.sig_raw)).length

/-- Models `n_fdr_sig = results_df["Sig_FDR (q<α)"].sum()`. -/
def n_fdr_sig (bh : BHOracle) (alpha : ℚ) (results : List ResultRow) : ℕ :=
  ((sortResults (annotate bh alpha results)).filter (fun a => a.sig_fdr)).length

/-- Models the guarded summary line: `if n_raw_sig > 0:
reduction = (1 - n_fdr_sig / n_raw_sig) * 100` printed, otherwise no line. -/
def reductionLine (bh : BHOracle) (alpha : ℚ) (results : List ResultRow) : Option ℚ :=
  if 0 < n_raw_sig bh alpha results then
    some ((1 - (n_fdr_sig bh alpha results : ℚ) / (n_raw_sig bh alpha results : ℚ)) * 100)
  else none

/-- Models the `alt_map` dictionary. -/
def alt_map : List (String × String) :=
  [("two_sided", "two-sided"), ("two-sided", "two-sided"),
   ("greater", "increasing"), ("increasing", "increasing"),
   ("less", "decreasing"), ("decreasing", "decreasing")]

/-- Models `jt_alternative = alt_map.get(alternative, "two-sided")`. -/
def jt_alternative (alternative : String) : String :=
  (alt_map.lookup alternative).getD "two-sided"

/-- The CLI arguments of `jt_test` that affect the computation. -/
structure Args where
  group_column : String
  group_order : String
  id_column : String
  alternative : String
  fdr_alpha : ℚ
deriving DecidableEq

/-- Observable outcome of one run: the process exit status and the row list
written to the output file (`none` when nothing is written). -/
structure RunOutcome where
  exitCode : ℕ
  written : Option (List OutRow)
deriving DecidableEq

/-- The whole `jt_test` command.  `readResult` models `pd.read_csv`:
`none` is a read failure.  Exit status 1 on read failure or missing grouping
column; `typer.Exit()` with default code 0 on the benign early exits; normal
return (status 0) on success. -/
def jt_test (jt : JTOracle) (bh : BHOracle) (readResult : Option DataFrame)
    (args : Args) : RunOutcome :=
  match readResult with
  | none => { exitCode := 1, written := none }
  | some df =>
    if args.group_column ∈ df.colNames then
      let ordered := parseOrder args.group_order
      let dff := df_filtered df args.group_column ordered
      let targets := target_columns df args.group_column args.id_column ordered
      if targets.isEmpty then { exitCode := 0, written := none }
      else
        let alt := jt_alternative args.alternative
        let results := runTests jt alt ordered args.group_column dff.rows targets
        if results.isEmpty then { exitCode := 0, written := none }
        else { exitCode := 0, written := some (outputRows bh args.fdr_alpha results) }
    else { exitCode := 1, written := none }

/-- The same input table with one column removed everywhere: from the column
list, the numeric-dtype list, and every row.  Used to express what a run
would do "if a column were absent from the input". -/
def dropColumn (df : DataFrame) (c : String) : DataFrame :=
  { colNames := df.colNames.filter (fun x => x ≠ c)
    numericCols := df.numericCols.filter (fun x => x ≠ c)
    rows := df.rows.map (fun r => r.filter (fun p => p.1 ≠ c)) }

/-- A concrete per-column result used to instantiate theorems. -/
def sampleResult : ResultRow :=
  { varName := "A", JTR_Sum := 0, Z_statistic := 0, P_value_Raw := 0 }

/-- A concrete trend-test oracle that always succeeds. -/
def jtConst : JTOracle :=
  fun _ _ _ => some { statistic := 0, z_score := none, p_value := 0 }

/-- A concrete one-row table body used to instantiate theorems. -/
def sampleRows1 : List Row := [[("G", Cell.str "A"), ("X", Cell.num 1)]]

/-- A concrete row used to instantiate theorems. -/
def sampleRow3 : Row := [("G", Cell.str "B")]

/-- A concrete table used to instantiate theorems. -/
def sampleDF3 : DataFrame :=
  { colNames := ["G"], numericCols := [],
    rows := [[("G", Cell.str "B")], [("G", Cell.str "X")]] }

/-- The annotated row produced from `sampleResult` with `bh = id`, α = 1. -/
def sampleAnn : AnnRow :=
  { varName := "A", JTR_Sum := 0, Z_statistic := 0, P_value_Raw := 0, FDR := 0,
    sig_raw := true, sig_fdr := true }

/-- A concrete trend-test oracle that raises exactly on the value series
`[5]`. -/
def jtFail : JTOracle :=
  fun xs _ _ =>
    if xs = [(5 : ℚ)] then none
    else some { statistic := 0, z_score := none, p_value := 0 }

/-- A concrete three-column table used to instantiate theorems. -/
def df7 : DataFrame :=
  { colNames := ["G", "A", "B"], numericCols := ["A", "B"],
    rows := [[("G", Cell.str "S"), ("A", Cell.num 1), ("B", Cell.num 5)]] }

/-! ## Theorems -/

theorem jt_test_exitCode_some (jt : JTOracle) (bh : BHOracle) (df : DataFrame)
    (args : Args) :
    (jt_test jt bh (some df) args).exitCode =
      if args.group_column ∈ df.colNames then 0 else 1 := by
  by_cases h : args.group_column ∈ df.colNames
  · simp only [jt_test, if_pos h]
    split
    · rfl
    · split
      · rfl
      · rfl
  · simp only [jt_test, if_neg h]

/-- C10: an `--alt` value outside the six recognized strings is silently
mapped to "two-sided", and the whole run behaves exactly as if `--alt` had
been "two_sided". -/
theorem C10_unrecognized_alt (jt : JTOracle) (bh : BHOracle)
    (rr : Option DataFrame) (args : Args)
    (h : args.alternative ∉
      ["two_sided", "two-sided", "greater", "increasing", "less", "decreasing"]) :
    jt_alternative args.alternative = "two-sided" ∧
    jt_test jt bh rr args = jt_test jt bh rr { args with alternative := "two_sided" } := by
  obtain ⟨h1, h2, h3, h4, h5, h6⟩ :
      args.alternative ≠ "two_sided" ∧ args.alternative ≠ "two-sided" ∧
      args.alternative ≠ "greater" ∧ args.alternative ≠ "increasing" ∧
      args.alternative ≠ "less" ∧ args.alternative ≠ "decreasing" := by
    simpa using h
  have hb1 : (args.alternative == "two_sided") = false := beq_eq_false_iff_ne.mpr h1
  have hb2 : (args.alternative == "two-sided") = false := beq_eq_false_iff_ne.mpr h2
  have hb3 : (args.alternative == "greater") = false := beq_eq_false_iff_ne.mpr h3
  have hb4 : (args.alternative == "increasing") = false := beq_eq_false_iff_ne.mpr h4
  have hb5 : (args.alternative == "less") = false := beq_eq_false_iff_ne.mpr h5
  have hb6 : (args.alternative == "decreasing") = false := beq_eq_false_iff_ne.mpr h6
  have halt : jt_alternative args.alternative = "two-sided" := by
    simp [jt_alternative, alt_map, List.lookup, hb1, hb2, hb3, hb4, hb5, hb6]
  refine ⟨halt, ?_⟩
  obtain ⟨gcol, gord, idc, alt, alpha⟩ := args
  cases rr with
  | none => rfl
  | some df =>
    simp only [jt_test]
    rw [show jt_alternative alt = "two-sided" from halt]
    rfl

theorem C10_unrecognized_alt_witness :
    jt_alternative "banana" = "two-sided" ∧
    jt_test (fun _ _ _ => none) id none
      { group_column := "G", group_order := "A,B", id_column := "Sample Name",
        alternative := "banana", fdr_alpha := 1/20 } =
    jt_test (fun _ _ _ => none) id none
      { group_column := "G", group_order := "A,B", id_column := "Sample Name",
        alternative := "two_sided", fdr_alpha := 1/20 } :=
  C10_unrecognized_alt (fun _ _ _ => none) id none
    { group_column := "G", group_order := "A,B", id_column := "Sample Name",
      alternative := "banana", fdr_alpha := 1/20 } (by decide)

/-- C9: the percentage-reduction line is produced only when the
raw-significant count is strictly positive; with a zero count no line is
printed and the division is never reached. -/
theorem C9_reduction_guard (bh : BHOracle) (alpha : ℚ) (results : List ResultRow) :
    (n_raw_sig bh alpha results = 0 → reductionLine bh alpha results = none) ∧
    (∀ q : ℚ, reductionLine bh alpha results = some q →
      0 < n_raw_sig bh alpha results) := by
  constructor
  · intro h
    simp [reductionLine, h]
  · intro q hq
    unfold reductionLine at hq
    split at hq
    · assumption
    · exact absurd hq (by simp)

theorem C9_reduction_guard_witness :
    reductionLine id (1/20) [] = none :=
  (C9_reduction_guard id (1/20) []).1 rfl

/-- C2: in every row of the result set, the FDR flag is true only if the
adjusted p-value is strictly below α, and the raw flag is true only if the
raw p-value is strictly below α. -/
theorem C2_sig_flags (bh : BHOracle) (alpha : ℚ) (results : List ResultRow)
    (r : AnnRow) (hr : r ∈ sortResults (annotate bh alpha results)) :
    (r.sig_fdr = true → r.FDR < alpha) ∧
    (r.sig_raw = true → r.P_value_Raw < alpha) := by
  rw [sortResults, List.mem_insertionSort] at hr
  unfold annotate at hr
  simp only [List.mem_map] at hr
  obtain ⟨p, hp, rfl⟩ := hr
  constructor <;> intro h <;> simpa using h

theorem C2_sig_flags_witness :
    (sampleAnn.sig_fdr = true → sampleAnn.FDR < 1) ∧
    (sampleAnn.sig_raw = true → sampleAnn.P_value_Raw < 1) :=
  C2_sig_flags id 1 [sampleResult] sampleAnn (by decide)

theorem inGroups_eq_true_iff (ordered : List String) (gc : String) (r : Row) :
    inGroups ordered gc r = true ↔
      ∃ s, getCell r gc = Cell.str s ∧ s ∈ ordered := by
  unfold inGroups
  cases h : getCell r gc <;> simp [h, List.elem_iff]

/-- C3: the retained rows after the group filter are exactly those whose
grouping cell is a label occurring in the trimmed comma-split order list,
and each retained row's ordinal code is the 0-based position of its label in
that list (positions are unique because pandas requires distinct
categories). -/
theorem C3_group_filter (df : DataFrame) (gc orderStr : String) (r : Row)
    (hnd : (parseOrder orderStr).Nodup) :
    (r ∈ (df_filtered df gc (parseOrder orderStr)).rows ↔
      r ∈ df.rows ∧ ∃ s, getCell r gc = Cell.str s ∧ s ∈ parseOrder orderStr) ∧
    (∀ s, r ∈ (df_filtered df gc (parseOrder orderStr)).rows →
      getCell r gc = Cell.str s →
      (parseOrder orderStr).get? (groupCode (parseOrder orderStr) gc r) = some s ∧
      ∀ j, (parseOrder orderStr).get? j = some s →
        j = groupCode (parseOrder orderStr) gc r) := by
  constructor
  · unfold df_filtered
    simp only [List.mem_filter, inGroups_eq_true_iff]
  · intro s hmem hcell
    have hin : inGroups (parseOrder orderStr) gc r = true := by
      unfold df_filtered at hmem
      exact (List.mem_filter.mp hmem).2
    have hs : s ∈ parseOrder orderStr := by
      obtain ⟨s', hcell', hs'⟩ := (inGroups_eq_true_iff _ _ _).mp hin
      rw [hcell] at hcell'
      cases hcell'
      exact hs'
    have hcode : groupCode (parseOrder orderStr) gc r =
        (parseOrder orderStr).indexOf s := by
      unfold groupCode
      rw [hcell]
    refine ⟨by rw [hcode]; exact List.indexOf_get? hs, ?_⟩
    intro j hj
    rw [hcode]
    obtain ⟨hjlt, hjget⟩ := List.get?_eq_some.mp hj
    have hilt : (parseOrder orderStr).indexOf s < (parseOrder orderStr).length :=
      List.indexOf_lt_length.mpr hs
    have higet : (parseOrder orderStr).get ⟨_, hilt⟩ = s := List.indexOf_get hilt
    have : (⟨j, hjlt⟩ : Fin (parseOrder orderStr).length) = ⟨_, hilt⟩ :=
      (List.Nodup.get_inj_iff hnd).mp (by rw [hjget, higet])
    exact congrArg Fin.val this

theorem C3_group_filter_witness :
    (sampleRow3 ∈ (df_filtered sampleDF3 "G" (parseOrder "A, B")).rows ↔
      sampleRow3 ∈ sampleDF3.rows ∧
      ∃ s, getCell sampleRow3 "G" = Cell.str s ∧ s ∈ parseOrder "A, B") :=
  (C3_group_filter sampleDF3 "G" "A, B" sampleRow3 (by decide)).1

/-- C4: a column is a target exactly when its dtype in the filtered frame is
numeric, it is not the grouping column, and — whenever the identifier column
is present in the input — it is not the identifier column; in particular a
numeric column named like the identifier is excluded. -/
theorem C4_column_selection (df : DataFrame) (gc idc : String)
    (ordered : List String) (col : String) :
    col ∈ target_columns df gc idc ordered ↔
      (col ∈ (df_filtered df gc ordered).numericCols ∧ col ≠ gc ∧
        (idc ∈ df.colNames → col ≠ idc)) := by
  unfold target_columns value_columns cols_to_exclude
  by_cases h : idc ∈ df.colNames
  · simp only [if_pos h, List.mem_filter, decide_eq_true_eq, List.mem_cons,
      List.mem_singleton, not_or, List.not_mem_nil]
    tauto
  · simp only [if_neg h, List.mem_filter, decide_eq_true_eq, List.mem_cons,
      List.mem_singleton, List.not_mem_nil, not_or]
    tauto

/-- C5: in the written result list, any two consecutive rows are ordered by
strictly smaller FDR, or equal FDR and raw p-value less than or equal. -/
theorem C5_output_sorted (bh : BHOracle) (alpha : ℚ) (results : List ResultRow) :
    List.Chain' (fun a b : OutRow =>
      a.FDR < b.FDR ∨ (a.FDR = b.FDR ∧ a.P_value_Raw ≤ b.P_value_Raw))
      (outputRows bh alpha results) := by
  unfold outputRows
  have hs : List.Sorted annLe (sortResults (annotate bh alpha results)) :=
    List.sorted_insertionSort annLe _
  have hp : List.Pairwise (fun a b : OutRow =>
      a.FDR < b.FDR ∨ (a.FDR = b.FDR ∧ a.P_value_Raw ≤ b.P_value_Raw))
      ((sortResults (annotate bh alpha results)).map project) :=
    List.Pairwise.map project (fun a b hab => hab) hs
  exact hp.chain'

theorem length_filterMap_eq_countP {α : Type} {β : Type} (f : α → Option β)
    (l : List α) :
    (l.filterMap f).length = l.countP (fun a => (f a).isSome) := by
  induction l with
  | nil => rfl
  | cons a t ih =>
    cases h : f a <;>
      simp [List.filterMap_cons, h, List.countP_cons, ih]

theorem testColumn_eq_none_iff (jt : JTOracle) (alt : String)
    (ordered : List String) (gc : String) (rows : List Row) (col : String) :
    testColumn jt alt ordered gc rows col = none ↔
      (current_data ordered gc col rows = [] ∨
       jt ((current_data ordered gc col rows).map Prod.fst)
          ((current_data ordered gc col rows).map Prod.snd) alt = none) := by
  unfold testColumn
  by_cases h : (current_data ordered gc col rows).length = 0
  · rw [if_pos h]
    simp [List.length_eq_zero.mp h]
  · rw [if_neg h]
    have hne : current_data ordered gc col rows ≠ [] := by
      intro hx
      exact h (by rw [hx]; rfl)
    cases hj : jt ((current_data ordered gc col rows).map Prod.fst)
        ((current_data ordered gc col rows).map Prod.snd) alt with
    | none => simp [hne]
    | some robj => simp [hne, hj]

/-- C1: the number of written rows equals the number of target columns minus
those that had zero usable rows after dropping missing values or whose trend
test raised; such columns are omitted without any error row. -/
theorem C1_row_count (jt : JTOracle) (bh : BHOracle) (alt : String)
    (ordered : List String) (gc : String) (alpha : ℚ)
    (rows : List Row) (targets : List String)
    (hbh : ∀ l, (bh l).length = l.length) :
    (outputRows bh alpha (runTests jt alt ordered gc rows targets)).length =
      targets.length - (targets.filter (fun col =>
        decide (current_data ordered gc col rows = []) ||
        decide (jt ((current_data ordered gc col rows).map Prod.fst)
          ((current_data ordered gc col rows).map Prod.snd) alt = none))).length := by
  have h1 : ∀ res : List ResultRow, (outputRows bh alpha res).length = res.length := by
    intro res
    unfold outputRows sortResults annotate
    rw [List.length_map, List.length_insertionSort, List.length_map, List.length_zip,
        hbh, List.length_map, min_self]
  rw [h1]
  unfold runTests
  rw [length_filterMap_eq_countP, ← List.countP_eq_length_filter]
  have hsplit := List.length_eq_countP_add_countP (fun col =>
    decide (current_data ordered gc col rows = []) ||
    decide (jt ((current_data ordered gc col rows).map Prod.fst)
      ((current_data ordered gc col rows).map Prod.snd) alt = none)) targets
  have hcong : List.countP (fun a => (testColumn jt alt ordered gc rows a).isSome)
      targets = List.countP (fun a => decide ¬((decide (current_data ordered gc a rows = []) ||
        decide (jt ((current_data ordered gc a rows).map Prod.fst)
          ((current_data ordered gc a rows).map Prod.snd) alt = none)) = true)) targets := by
    apply List.countP_congr
    intro col _
    constructor
    · intro hsome
      simp only [decide_eq_true_eq]
      intro hor
      have : testColumn jt alt ordered gc rows col = none := by
        apply (testColumn_eq_none_iff jt alt ordered gc rows col).mpr
        rcases Bool.or_eq_true_iff.mp hor with h | h
        · exact Or.inl (of_decide_eq_true h)
        · exact Or.inr (of_decide_eq_true h)
      rw [this] at hsome
      exact Bool.noConfusion hsome
    · intro hnot
      simp only [decide_eq_true_eq, Bool.or_eq_true_iff, decide_eq_true_eq, not_or] at hnot
      have : testColumn jt alt ordered gc rows col ≠ none := by
        intro hx
        rcases (testColumn_eq_none_iff jt alt ordered gc rows col).mp hx with h | h
        · exact hnot.1 h
        · exact hnot.2 h
      exact Option.ne_none_iff_isSome.mp this
  rw [hcong]
  omega

theorem C1_row_count_witness :
    (outputRows id (1/20)
        (runTests jtConst "two-sided" ["A"] "G" sampleRows1 ["X", "Y"])).length =
      (["X", "Y"] : List String).length - ((["X", "Y"] : List String).filter (fun col =>
        decide (current_data ["A"] "G" col sampleRows1 = []) ||
        decide (jtConst ((current_data ["A"] "G" col sampleRows1).map Prod.fst)
          ((current_data ["A"] "G" col sampleRows1).map Prod.snd)
          "two-sided" = none))).length :=
  C1_row_count jtConst id "two-sided" ["A"] "G" (1/20) sampleRows1 ["X", "Y"]
    (fun _ => rfl)

/-- C6: the exit status is 1 exactly when the input cannot be read or the
grouping column is missing; every other path (benign early exits included)
exits with status 0. -/
theorem C6_exit_codes (jt : JTOracle) (bh : BHOracle) (rr : Option DataFrame)
    (args : Args) :
    ((jt_test jt bh rr args).exitCode = 1 ↔
      rr = none ∨ ∃ df, rr = some df ∧ args.group_column ∉ df.colNames) ∧
    ((jt_test jt bh rr args).exitCode = 0 ↔
      ∃ df, rr = some df ∧ args.group_column ∈ df.colNames) := by
  cases rr with
  | none => simp [jt_test]
  | some df =>
    rw [jt_test_exitCode_some]
    by_cases h : args.group_column ∈ df.colNames
    · simp [h]
    · simp [h]

theorem C6_exit_codes_witness :
    (jt_test (fun _ _ _ => none) id none
      { group_column := "G", group_order := "A,B", id_column := "Sample Name",
        alternative := "two_sided", fdr_alpha := 1/20 }).exitCode = 1 :=
  (C6_exit_codes (fun _ _ _ => none) id none
    { group_column := "G", group_order := "A,B", id_column := "Sample Name",
      alternative := "two_sided", fdr_alpha := 1/20 }).1.mpr (Or.inl rfl)

/-- C8: the pipeline is deterministic; two runs on identical parsed input and
identical arguments produce identical outcomes (exit status and written
rows). -/
theorem C8_deterministic (jt : JTOracle) (bh : BHOracle)
    (rr1 rr2 : Option DataFrame) (a1 a2 : Args)
    (hrr : rr1 = rr2) (ha : a1 = a2) :
    jt_test jt bh rr1 a1 = jt_test jt bh rr2 a2 := by
  rw [hrr, ha]

theorem C8_deterministic_witness :
    jt_test (fun _ _ _ => none) id none
      { group_column := "G", group_order := "A,B", id_column := "Sample Name",
        alternative := "two_sided", fdr_alpha := 1/20 } =
    jt_test (fun _ _ _ => none) id none
      { group_column := "G", group_order := "A,B", id_column := "Sample Name",
        alternative := "two_sided", fdr_alpha := 1/20 } :=
  C8_deterministic (fun _ _ _ => none) id none none _ _ rfl rfl

theorem lookup_filter_ne (r : Row) (c c' : String) (h : c' ≠ c) :
    (r.filter (fun p => p.1 ≠ c)).lookup c' = r.lookup c' := by
  induction r with
  | nil => rfl
  | cons p t ih =>
    rw [List.filter_cons]
    by_cases hp : p.1 = c
    · have hcond : (decide (p.1 ≠ c)) = false := by simp [hp]
      rw [hcond, if_neg (by simp)]
      rw [ih]
      have hb : (c' == p.1) = false := by
        rw [hp]
        exact beq_eq_false_iff_ne.mpr h
      simp [List.lookup, hb]
    · have hcond : (decide (p.1 ≠ c)) = true := by simp [hp]
      rw [hcond, if_pos rfl]
      by_cases hb : (c' == p.1) = true
      · simp [List.lookup, hb]
      · simp only [Bool.not_eq_true] at hb
        simp only [List.lookup, hb]
        simpa using ih

theorem getCell_filter_ne (r : Row) (c c' : String) (h : c' ≠ c) :
    getCell (r.filter (fun p => p.1 ≠ c)) c' = getCell r c' := by
  unfold getCell
  rw [lookup_filter_ne r c c' h]

theorem inGroups_filter_ne (ordered : List String) (gc c : String) (r : Row)
    (h : gc ≠ c) :
    inGroups ordered gc (r.filter (fun p => p.1 ≠ c)) = inGroups ordered gc r := by
  unfold inGroups
  rw [getCell_filter_ne r c gc h]

theorem current_data_map_filter (ordered : List String) (gc col c : String)
    (rows : List Row) (hgc : gc ≠ c) (hcol : col ≠ c) :
    current_data ordered gc col (rows.map (fun r => r.filter (fun p => p.1 ≠ c))) =
      current_data ordered gc col rows := by
  unfold current_data
  rw [List.filterMap_map]
  apply List.filterMap_congr
  intro r _
  simp only [Function.comp_apply]
  rw [getCell_filter_ne r c col hcol, getCell_filter_ne r c gc hgc]

theorem testColumn_map_filter (jt : JTOracle) (alt : String) (ordered : List String)
    (gc c : String) (rows : List Row) (col : String) (hgc : gc ≠ c) (hcol : col ≠ c) :
    testColumn jt alt ordered gc
        (rows.map (fun r => r.filter (fun p => p.1 ≠ c))) col =
      testColumn jt alt ordered gc rows col := by
  unfold testColumn
  rw [current_data_map_filter ordered gc col c rows hgc hcol]

theorem df_filtered_dropColumn (df : DataFrame) (gc c : String)
    (ordered : List String) (hgc : gc ≠ c) :
    (df_filtered (dropColumn df c) gc ordered).rows =
      (df_filtered df gc ordered).rows.map (fun r => r.filter (fun p => p.1 ≠ c)) := by
  unfold df_filtered dropColumn
  simp only []
  rw [List.filter_map]
  congr 1
  apply List.filter_congr
  intro r _
  simp only [Function.comp_apply]
  exact inGroups_filter_ne ordered gc c r hgc

theorem target_columns_dropColumn (df : DataFrame) (gc idc c : String)
    (ordered : List String) (hidc : c ≠ idc) :
    target_columns (dropColumn df c) gc idc ordered =
      (target_columns df gc idc ordered).filter (fun x => x ≠ c) := by
  unfold target_columns value_columns cols_to_exclude df_filtered dropColumn
  simp only []
  have h2 : idc ≠ c := Ne.symm hidc
  have hmem : (idc ∈ df.colNames.filter (fun x => x ≠ c)) ↔ idc ∈ df.colNames := by
    simp [List.mem_filter, h2]
  by_cases h : idc ∈ df.colNames
  · rw [if_pos (hmem.mpr h), if_pos h]
    rw [List.filter_filter, List.filter_filter, List.filter_filter, List.filter_filter]
    apply List.filter_congr
    intro x _
    simp [Bool.and_comm, Bool.and_left_comm, Bool.and_assoc]
  · rw [if_neg (fun hx => h (hmem.mp hx)), if_neg h]
    rw [List.filter_filter, List.filter_filter, List.filter_filter, List.filter_filter]
    apply List.filter_congr
    intro x _
    simp [Bool.and_comm, Bool.and_left_comm, Bool.and_assoc]

theorem filterMap_filter_ne {α : Type} {β : Type} [DecidableEq α]
    (f g : α → Option β) (c : α) (l : List α)
    (hfc : f c = none) (hfg : ∀ x ∈ l, x ≠ c → f x = g x) :
    l.filterMap f = (l.filter (fun x => x ≠ c)).filterMap g := by
  induction l with
  | nil => rfl
  | cons a t ih =>
    have iht := ih (fun x hx hne => hfg x (List.mem_cons_of_mem _ hx) hne)
    rw [List.filterMap_cons, List.filter_cons]
    by_cases ha : a = c
    · subst ha
      rw [hfc, if_neg (by simp)]
      exact iht
    · have hfga : f a = g a := hfg a (List.mem_cons_self a t) ha
      rw [if_pos (by simp [ha]), List.filterMap_cons, ← hfga]
      cases hfa : f a <;> simp [iht]

/-- C7: when the trend test raises on one target column, only that column is
skipped and the whole result list is identical to the result list of a run
on the input with that column removed; the batch is not aborted. -/
theorem C7_column_isolation (jt : JTOracle) (alt : String) (df : DataFrame)
    (gc idc : String) (ordered : List String) (c : String)
    (hwf : df.numericCols ⊆ df.colNames)
    (hc : c ∈ target_columns df gc idc ordered)
    (hfail : jt ((current_data ordered gc c (df_filtered df gc ordered).rows).map Prod.fst)
        ((current_data ordered gc c (df_filtered df gc ordered).rows).map Prod.snd) alt
        = none) :
    runTests jt alt ordered gc (df_filtered df gc ordered).rows
        (target_columns df gc idc ordered) =
      runTests jt alt ordered gc (df_filtered (dropColumn df c) gc ordered).rows
        (target_columns (dropColumn df c) gc idc ordered) := by
  have hmem := hc
  unfold target_columns value_columns cols_to_exclude df_filtered at hmem
  rw [List.mem_filter] at hmem
  obtain ⟨hnum, hex⟩ := hmem
  rw [List.mem_filter] at hnum
  obtain ⟨hnumc, hgcb⟩ := hnum
  have hcgc : c ≠ gc := by simpa using hgcb
  have hcidc : c ≠ idc := by
    by_cases h : idc ∈ df.colNames
    · rw [if_pos h] at hex
      simp only [decide_eq_true_eq, List.mem_cons, List.mem_singleton, not_or,
        List.not_mem_nil] at hex
      exact hex.2.1
    · intro he
      subst he
      exact h (hwf hnumc)
  rw [df_filtered_dropColumn df gc c ordered (Ne.symm hcgc),
      target_columns_dropColumn df gc idc c ordered hcidc]
  unfold runTests
  apply filterMap_filter_ne
  · exact (testColumn_eq_none_iff jt alt ordered gc
      (df_filtered df gc ordered).rows c).mpr (Or.inr hfail)
  · intro x _ hne
    exact (testColumn_map_filter jt alt ordered gc c
      (df_filtered df gc ordered).rows x (Ne.symm hcgc) hne).symm

theorem C7_column_isolation_witness :
    runTests jtFail "two-sided" ["S"] "G" (df_filtered df7 "G" ["S"]).rows
        (target_columns df7 "G" "Sample Name" ["S"]) =
      runTests jtFail "two-sided" ["S"] "G"
        (df_filtered (dropColumn df7 "B") "G" ["S"]).rows
        (target_columns (dropColumn df7 "B") "G" "Sample Name" ["S"]) :=
  C7_column_isolation jtFail "two-sided" df7 "G" "Sample Name" ["S"] "B"
    (by decide) (by decide) (by decide)

end SciTools
